import Mathlib

/-!
Shallow embedding of `src/weather_now.py` (a command-line weather lookup
tool built on the Open-Meteo API) and proofs about it.

Conventions of the embedding:
* Python floats are modelled as rationals (`ℚ`); Python's `round(x, n)`
  (round-half-to-even) is modelled by `roundHalfEven` / `round2`.
* Python dicts are modelled as match-functions returning `Option`
  (`dict.get(k, d)` becomes `(f k).getD d`) or as Lean structures when the
  field set is fixed.
* `print(...)` calls are collected into a `List String` of output lines;
  an empty `print()` contributes `""`.
* Network I/O is abstracted: the two HTTP responses are inputs of the
  `main_run` function, everything after the response bodies is embedded
  from the source.
-/

/-- Python's `round`-to-integer: round half to even (banker's rounding). -/
def roundHalfEven (q : ℚ) : ℤ :=
  let f := ⌊q⌋
  let frac := q - f
  if frac < 1/2 then f
  else if frac > 1/2 then f + 1
  else if f % 2 = 0 then f else f + 1

/-- Python's `round(x, 2)`: round to two decimal places, half to even. -/
def round2 (q : ℚ) : ℚ := (roundHalfEven (q * 100) : ℚ) / 100

/-- Rendering of a numeric value into output text (the embedding's stand-in
for Python's str() of a number: exact digits for integers, `num/den`
otherwise; the claims under study depend only on this being a fixed
function of the value). -/
def showQ (q : ℚ) : String :=
  if q.den = 1 then toString q.num
  else toString q.num ++ "/" ++ toString q.den

/-- The `WEATHER_CODES` dict (WMO weather code → description), as a
match-function: `WEATHER_CODES_get c` is `WEATHER_CODES.get(c)`. -/
def WEATHER_CODES_get (code : ℕ) : Option String :=
  match code with
  | 0 => some "Clear sky"
  | 1 => some "Mainly clear"
  | 2 => some "Partly cloudy"
  | 3 => some "Overcast"
  | 45 => some "Foggy"
  | 48 => some "Depositing rime fog"
  | 51 => some "Light drizzle"
  | 53 => some "Moderate drizzle"
  | 55 => some "Dense drizzle"
  | 56 => some "Light freezing drizzle"
  | 57 => some "Dense freezing drizzle"
  | 61 => some "Slight rain"
  | 63 => some "Moderate rain"
  | 65 => some "Heavy rain"
  | 66 => some "Light freezing rain"
  | 67 => some "Heavy freezing rain"
  | 71 => some "Slight snowfall"
  | 73 => some "Moderate snowfall"
  | 75 => some "Heavy snowfall"
  | 77 => some "Snow grains"
  | 80 => some "Slight rain showers"
  | 81 => some "Moderate rain showers"
  | 82 => some "Violent rain showers"
  | 85 => some "Slight snow showers"
  | 86 => some "Heavy snow showers"
  | 95 => some "Thunderstorm"
  | 96 => some "Thunderstorm with slight hail"
  | 99 => some "Thunderstorm with heavy hail"
  | _ => none

/-- The keys of the `WEATHER_CODES` dict (also exactly the codes named in
the `get_weather_category` if-chain). -/
def WEATHER_CODES_keys : List ℕ :=
  [0, 1, 2, 3, 45, 48, 51, 53, 55, 56, 57, 61, 63, 65, 66, 67,
   71, 73, 75, 77, 80, 81, 82, 85, 86, 95, 96, 99]

/-- The `WEATHER_ASCII_ART` dict (category → multi-line ASCII art). -/
def WEATHER_ASCII_ART_get (key : String) : Option String :=
  match key with
  | "clear" => some "\n     \\ | /\n    -  O  -\n     / | \\\n    "
  | "clear_night" => some "\n       )\\\n       //\n    .-\"\n    "
  | "partly_cloudy" => some "\n     \\ | /_\n    -  o(  )_\n     / (_____)\n    "
  | "partly_cloudy_night" => some "\n      )\\   __\n      //  (  )_\n    .-\"  (_____)\n    "
  | "cloudy" => some "\n      __\n     (  )_\n    (_____)\n    "
  | "rain" => some "\n      __\n     (  )_\n    (_____)\n     \\ \\ \\\n    "
  | "snow" => some "\n      __\n     (  )_\n    (_____)\n     * * *\n    "
  | "thunderstorm" => some "\n      __\n     (  )_\n    (_____)\n     /_ /_\n      /  /\n    "
  | "fog" => some "\n     _______\n    ( ~ ~ ~ )\n    ( ~ ~ ~ )\n    ( ~ ~ ~ )\n    \x27-------\x27\n    "
  | _ => none

/-- The `WEATHER_SYMBOLS` dict (category → unicode weather symbol). -/
def WEATHER_SYMBOLS_get (key : String) : Option String :=
  match key with
  | "clear" => some "☀"
  | "clear_night" => some "🌙"
  | "partly_cloudy" => some "⛅"
  | "partly_cloudy_night" => some "🌙☁"
  | "cloudy" => some "☁"
  | "rain" => some "🌧"
  | "snow" => some "🌨"
  | "thunderstorm" => some "⛈"
  | "fog" => some "🌫"
  | _ => none

/-- The fixed list `directions` of `degrees_to_compass`. -/
def compassDirections : List String :=
  ["N", "NNE", "NE", "ENE", "E", "ESE", "SE", "SSE",
   "S", "SSW", "SW", "WSW", "W", "WNW", "NW", "NNW"]

/-- `degrees_to_compass`: convert wind direction in degrees to a compass
direction via `round(degrees / 22.5) % 16`. (Python indexing with a
provably in-range index; the `getD` default is never reached.) -/
def degrees_to_compass (degrees : ℚ) : String :=
  let index := (roundHalfEven (degrees / 22.5)) % 16
  compassDirections.getD index.toNat "N"

/-- `get_weather_description`: weather code → human-readable description,
with the synthesized `Unknown (<code>)` fallback. -/
def get_weather_description (code : ℕ) : String :=
  (WEATHER_CODES_get code).getD ("Unknown (" ++ toString code ++ ")")

/-- `get_weather_category`: map a WMO weather code to an art category.
The if-chain is translated clause by clause; tuple membership `code in
(…)` becomes list membership. -/
def get_weather_category (code : ℕ) : String :=
  if code ∈ ([0, 1] : List ℕ) then "clear"
  else if code = 2 then "partly_cloudy"
  else if code = 3 then "cloudy"
  else if code ∈ ([51, 53, 55, 61, 63, 65, 80, 81, 82] : List ℕ) then "rain"
  else if code ∈ ([71, 73, 75, 77, 85, 86, 56, 57, 66, 67] : List ℕ) then "snow"
  else if code ∈ ([95, 96, 99] : List ℕ) then "thunderstorm"
  else if code ∈ ([45, 48] : List ℕ) then "fog"
  else "cloudy"

/-- The suffix chosen inside `get_weather_graphic`: `"_night"` exactly when
the Python condition `category == "clear" or category == "partly_cloudy"
and not is_day` holds (with Python precedence: `or` binds looser than
`and`). -/
def graphic_suffix (code : ℕ) (is_day : Bool) : String :=
  let category := get_weather_category code
  if category = "clear" ∨ (category = "partly_cloudy" ∧ ¬ is_day) then "_night"
  else ""

/-- The glyph-table key `f"{category}{suffix}"` used by
`get_weather_graphic`. -/
def graphic_key (code : ℕ) (is_day : Bool) : String :=
  get_weather_category code ++ graphic_suffix code is_day

/-- `get_weather_graphic`: look the key up in the given glyph table with
the table's `"cloudy"` entry as fallback (`graphic_type.get(key,
graphic_type["cloudy"])`; both concrete tables contain `"cloudy"`, so the
inner `getD ""` default is never reached). -/
def get_weather_graphic (graphic_type : String → Option String)
    (code : ℕ) (is_day : Bool) : String :=
  (graphic_type (graphic_key code is_day)).getD ((graphic_type "cloudy").getD "")

/-- The three unit selections passed to `main` / `fetch_weather`. -/
structure UnitsSel where
  temperature : String
  precipitation : String
  wind : String

/-- The initial `params["current"]` list of `fetch_weather`. -/
def basicCurrentFields : List String :=
  ["temperature_2m", "apparent_temperature", "relative_humidity_2m",
   "wind_speed_10m", "wind_gusts_10m", "wind_direction_10m",
   "weather_code", "cloud_cover", "precipitation", "pressure_msl",
   "visibility", "is_day"]

/-- The fields appended to `params["current"]` when `output_type ==
"extra"`. -/
def extraCurrentFields : List String :=
  ["dew_point_2m", "wind_speed_80m", "wind_speed_120m", "wind_speed_180m",
   "wind_direction_80m", "wind_direction_120m", "wind_direction_180m",
   "cloud_cover_low", "cloud_cover_mid", "cloud_cover_high",
   "freezing_level_height", "cape", "lifted_index",
   "convective_inhibition", "total_column_integrated_water_vapour",
   "vapour_pressure_deficit", "evapotranspiration"]

/-- The query parameters `fetch_weather` sends to the forecast endpoint. -/
structure FetchParams where
  latitude : String
  longitude : String
  temperature_unit : String
  precipitation_unit : String
  wind_speed_unit : String
  current : List String
  timezone : String

/-- The request built by `fetch_weather` (everything up to the `requests.get`
call, which is abstracted away). -/
def fetch_weather_params (latitude longitude : String) (units : UnitsSel)
    (output_type : String) : FetchParams :=
  { latitude := latitude
    longitude := longitude
    temperature_unit := units.temperature
    precipitation_unit := units.precipitation
    wind_speed_unit := units.wind
    current :=
      basicCurrentFields ++
        (if output_type = "extra" then extraCurrentFields else [])
    timezone := "auto" }

/-- The `current_units` object of the forecast response: one unit string per
requested field (the fields `display_weather` reads units for). -/
structure CurrentUnits where
  temperature_2m : String
  apparent_temperature : String
  relative_humidity_2m : String
  wind_speed_10m : String
  wind_gusts_10m : String
  wind_direction_10m : String
  cloud_cover : String
  precipitation : String
  pressure_msl : String
  visibility : String
  dew_point_2m : String
  wind_speed_80m : String
  wind_speed_120m : String
  wind_speed_180m : String
  wind_direction_80m : String
  wind_direction_120m : String
  wind_direction_180m : String
  cloud_cover_low : String
  cloud_cover_mid : String
  cloud_cover_high : String
  freezing_level_height : String
  cape : String
  lifted_index : String
  convective_inhibition : String
  total_column_integrated_water_vapour : String
  vapour_pressure_deficit : String
  evapotranspiration : String

/-- The `current` object of the forecast response. Numeric observations are
rationals; `time` is the local timestamp string; `is_day` is the day/night
flag (Python receives 0/1 and only uses its truthiness). The extended
fields are present in the record; the renderer reads them only in `extra`
mode, mirroring the source. -/
structure CurrentData where
  time : String
  is_day : Bool
  temperature_2m : ℚ
  apparent_temperature : ℚ
  relative_humidity_2m : ℚ
  wind_speed_10m : ℚ
  wind_gusts_10m : ℚ
  wind_direction_10m : ℚ
  weather_code : ℕ
  cloud_cover : ℚ
  precipitation : ℚ
  pressure_msl : ℚ
  visibility : ℚ
  dew_point_2m : ℚ
  wind_speed_80m : ℚ
  wind_speed_120m : ℚ
  wind_speed_180m : ℚ
  wind_direction_80m : ℚ
  wind_direction_120m : ℚ
  wind_direction_180m : ℚ
  cloud_cover_low : ℚ
  cloud_cover_mid : ℚ
  cloud_cover_high : ℚ
  freezing_level_height : ℚ
  cape : ℚ
  lifted_index : ℚ
  convective_inhibition : ℚ
  total_column_integrated_water_vapour : ℚ
  vapour_pressure_deficit : ℚ
  evapotranspiration : ℚ

/-- The parsed forecast response body used by `display_weather`:
`data["latitude"]`, `data["longitude"]`, `data["current"]`,
`data["current_units"]`. -/
structure WeatherData where
  latitude : ℚ
  longitude : ℚ
  current : CurrentData
  current_units : CurrentUnits

/-- The visibility normalization block of `display_weather` (lines 275-282
of the source): returns the displayed `(visibility, visibility_unit)`
pair. `visibility_unit` starts as `units["visibility"]`. -/
def normalize_visibility (visibility_unit : String) (v : ℚ) : ℚ × String :=
  if visibility_unit = "ft" ∧ v ≥ 5280 then (round2 (v / 5280), "miles")
  else if v ≥ 1000 then (round2 (v / 1000), "km")
  else (v, visibility_unit)

/-- The `Direction:` line of `display_weather`: raw degrees with unit suffix
when `output_type == "extra"`, otherwise the compass point. -/
def direction_line (output_type : String) (wind_direction : ℚ)
    (unit : String) : String :=
  if output_type = "extra" then
    "Direction: " ++ showQ wind_direction ++ unit
  else
    "Direction: " ++ degrees_to_compass wind_direction

/-- The additional lines printed by `display_weather` when `output_type ==
"extra"` (source lines 320-367). -/
def display_extra_lines (current : CurrentData) (units : CurrentUnits) :
    List String :=
  ["Dewpoint: " ++ showQ current.dew_point_2m ++ " " ++ units.dew_point_2m,
   "Wind 80m: " ++ showQ current.wind_speed_80m ++ " " ++ units.wind_speed_80m,
   "Wind 120m: " ++ showQ current.wind_speed_120m ++ " " ++ units.wind_speed_120m,
   "Wind 180m: " ++ showQ current.wind_speed_180m ++ " " ++ units.wind_speed_180m,
   "Wind direction 80m: " ++ showQ current.wind_direction_80m ++ " " ++ units.wind_direction_80m,
   "Wind direction 120m: " ++ showQ current.wind_direction_120m ++ " " ++ units.wind_direction_120m,
   "Wind direction 180m: " ++ showQ current.wind_direction_180m ++ " " ++ units.wind_direction_180m,
   "Cloud cover, low: " ++ showQ current.cloud_cover_low ++ " " ++ units.cloud_cover_low,
   "Cloud cover, middle: " ++ showQ current.cloud_cover_mid ++ " " ++ units.cloud_cover_mid,
   "Cloud cover, high: " ++ showQ current.cloud_cover_high ++ " " ++ units.cloud_cover_high,
   "Freezing level: " ++ showQ current.freezing_level_height ++ " " ++ units.freezing_level_height,
   "CAPE: " ++ showQ current.cape ++ units.cape,
   "Lifted index: " ++ showQ current.lifted_index ++ " " ++ units.lifted_index,
   "Convective inhibition: " ++ showQ current.convective_inhibition ++ " " ++ units.convective_inhibition,
   "TCWV: " ++ showQ current.total_column_integrated_water_vapour ++ " " ++ units.total_column_integrated_water_vapour,
   "Vapour pressure deficit: " ++ showQ current.vapour_pressure_deficit ++ " " ++ units.vapour_pressure_deficit,
   "Evapotranspiration: " ++ showQ current.evapotranspiration ++ " " ++ units.vapour_pressure_deficit]

/-- `display_weather`: format the weather information. Returns the printed
lines together with the observation data as it stands afterwards (the
function reads `data` but never writes into it, so the returned state is
the input; returning it makes that explicit and provable). -/
def display_weather (location_name : String) (data : WeatherData)
    (output_type : String) : List String × WeatherData :=
  let current := data.current
  let units := data.current_units
  let conditions := get_weather_description current.weather_code
  let vis := normalize_visibility units.visibility current.visibility
  let headLines : List String :=
    if output_type = "classic" then
      let header := "Weather for " ++ location_name ++ ", " ++
        showQ data.latitude ++ "," ++ showQ data.longitude ++
        " at " ++ current.time
      [header,
       String.mk (List.replicate header.length '='),
       get_weather_graphic WEATHER_ASCII_ART_get current.weather_code current.is_day]
    else if output_type = "data" ∨ output_type = "extra" then
      ["Location: " ++ location_name,
       "Coordinates: " ++ showQ data.latitude ++ "," ++ showQ data.longitude,
       "Local time: " ++ current.time,
       "Weather code: " ++ toString current.weather_code,
       "Symbol: " ++ get_weather_graphic WEATHER_SYMBOLS_get current.weather_code current.is_day]
    else []
  let mainLines : List String :=
    ["Temperature: " ++ showQ current.temperature_2m ++ units.temperature_2m,
     "Feels like: " ++ showQ current.apparent_temperature ++ units.apparent_temperature,
     "Humidity: " ++ showQ current.relative_humidity_2m ++ units.relative_humidity_2m,
     "Wind: " ++ showQ current.wind_speed_10m ++ " " ++ units.wind_speed_10m,
     "Gusts: " ++ showQ current.wind_gusts_10m ++ " " ++ units.wind_gusts_10m,
     direction_line output_type current.wind_direction_10m units.wind_direction_10m,
     "Conditions: " ++ conditions,
     "Cloud cover: " ++ showQ current.cloud_cover ++ units.cloud_cover,
     "Precipitation: " ++ showQ current.precipitation ++ " " ++ units.precipitation,
     "Pressure: " ++ showQ current.pressure_msl ++ " " ++ units.pressure_msl,
     "Visibility: " ++ showQ vis.1 ++ " " ++ vis.2]
  let extraLines : List String :=
    if output_type = "extra" then display_extra_lines current units else []
  ([""] ++ headLines ++ mainLines ++ extraLines ++ [""], data)

/-- One entry of the geocoder response's `results` array; each expected
field may be absent (a missing field raises `KeyError` in Python). -/
structure GeoResult where
  name : Option String
  latitude : Option String
  longitude : Option String

/-- The geocoder response's JSON body: the `results` key may be absent
(`none`) or hold an array of entries. -/
structure GeoResponse where
  results : Option (List GeoResult)

/-- Outcome of the `try` block of `geocode` together with its `except
KeyError` handler: `ok` on success; `locationNotFound` when a `KeyError`
was caught and re-raised as the `RuntimeError` with the guidance message;
`uncaughtIndexError` when `results` is present but the index `[0]` is out
of range, because `IndexError` is not a `KeyError` and escapes the
handler. -/
inductive GeoOutcome where
  | ok (name latitude longitude : String)
  | locationNotFound
  | uncaughtIndexError

/-- `geocode`, from the response body on: evaluates
`location["results"][0]["name"]` (then `latitude`, `longitude`) under a
handler that catches only `KeyError`. -/
def geocode (location : GeoResponse) : GeoOutcome :=
  match location.results with
  | none => GeoOutcome.locationNotFound
  | some rs =>
    match rs.head? with
    | none => GeoOutcome.uncaughtIndexError
    | some r =>
      match r.name with
      | none => GeoOutcome.locationNotFound
      | some n =>
        match r.latitude with
        | none => GeoOutcome.locationNotFound
        | some la =>
          match r.longitude with
          | none => GeoOutcome.locationNotFound
          | some lo => GeoOutcome.ok n la lo

/-- The guidance message of the `RuntimeError` raised by `geocode`. -/
def locationNotFoundMessage : String :=
  "Location not found. Did you forget to supply a valid -l <country_code> option?"

/-- A forecast response body: either it parses into the shape
`display_weather` expects, or a required key is missing and the first
access to it raises `KeyError` (carrying the key name). -/
inductive ForecastJson where
  | wellFormed (data : WeatherData)
  | malformed (missingKey : String)

/-- The outside world as `main` observes it: the outcome of each of the two
HTTP requests (a `RequestException` message, or a response body). The
forecast entry is only consulted if the geocode step succeeds. -/
structure Net where
  geo : Except String GeoResponse
  forecast : Except String ForecastJson

/-- Observable result of one program run: the interpreter's exit code, the
lines printed to stdout and to stderr, and whether a forecast request was
issued. -/
structure MainResult where
  exitCode : ℕ
  stdout : List String
  stderr : List String
  forecastRequested : Bool

/-- The stdout line printed by `main` for a `requests` transport error. -/
def networkErrorMessage (e : String) : String :=
  "Error geocoding location or fetching weather data: " ++ e

/-- The stdout line printed by `main` for a `KeyError`/`TypeError` while
reading the forecast data. -/
def parseErrorMessage (e : String) : String :=
  "Error parsing weather data: " ++ e

/-- The stderr text of the Python interpreter's traceback for the uncaught
`IndexError` escaping `geocode` (the interpreter then exits with code 1). -/
def indexErrorTraceback : String :=
  "Traceback (most recent call last): IndexError: list index out of range"

/-- `main`, over abstracted network outcomes: geocode, then fetch, then
display; `RequestException` and `RuntimeError` and `KeyError`/`TypeError`
are each caught and printed to stdout with exit code 1; the uncaught
`IndexError` aborts the interpreter with a traceback on stderr and exit
code 1. -/
def main_run (net : Net) (output_type : String) : MainResult :=
  match net.geo with
  | Except.error e =>
    { exitCode := 1, stdout := [networkErrorMessage e], stderr := [],
      forecastRequested := false }
  | Except.ok resp =>
    match geocode resp with
    | GeoOutcome.uncaughtIndexError =>
      { exitCode := 1, stdout := [], stderr := [indexErrorTraceback],
        forecastRequested := false }
    | GeoOutcome.locationNotFound =>
      { exitCode := 1, stdout := [locationNotFoundMessage], stderr := [],
        forecastRequested := false }
    | GeoOutcome.ok location_name _ _ =>
      match net.forecast with
      | Except.error e =>
        { exitCode := 1, stdout := [networkErrorMessage e], stderr := [],
          forecastRequested := true }
      | Except.ok (ForecastJson.malformed k) =>
        { exitCode := 1, stdout := [parseErrorMessage k], stderr := [],
          forecastRequested := true }
      | Except.ok (ForecastJson.wellFormed data) =>
        { exitCode := 0,
          stdout := (display_weather location_name data output_type).1,
          stderr := [], forecastRequested := true }

/-- The option flags registered on the argument parser, one `add_argument`
call each (`-h` from argparse itself aside, these are the only options the
program accepts). -/
def cliFlags : List String := ["-l", "-c", "-t", "-p", "-w", "-o"]

section Helpers

lemma getD_mem_of_lt {α : Type} :
    ∀ (l : List α) (i : ℕ) (d : α), i < l.length → l.getD i d ∈ l
  | a :: _, 0, _, _ => List.mem_cons_self a _
  | a :: t, n + 1, d, h =>
    List.mem_cons_of_mem a (getD_mem_of_lt t n d (by simpa using h))

lemma append_empty_ne_append_night (s : String) :
    s ++ "" ≠ s ++ "_night" := by
  intro heq
  have hlen := congrArg String.length heq
  rw [String.length_append, String.length_append] at hlen
  have h0 : ("" : String).length = 0 := by decide
  have h6 : ("_night" : String).length = 6 := by decide
  omega

lemma roundHalfEven_0 : roundHalfEven (0 / 22.5 : ℚ) = 0 := by
  unfold roundHalfEven
  norm_num

lemma roundHalfEven_90 : roundHalfEven (90 / 22.5 : ℚ) = 4 := by
  unfold roundHalfEven
  norm_num [Int.floor_eq_iff]

lemma roundHalfEven_185 : roundHalfEven (185 / 22.5 : ℚ) = 8 := by
  unfold roundHalfEven
  norm_num [Int.floor_eq_iff]

lemma roundHalfEven_359 : roundHalfEven (359 / 22.5 : ℚ) = 16 := by
  unfold roundHalfEven
  norm_num [Int.floor_eq_iff]

lemma compass_0 : degrees_to_compass 0 = "N" := by
  unfold degrees_to_compass
  rw [roundHalfEven_0]
  decide

lemma compass_90 : degrees_to_compass 90 = "E" := by
  unfold degrees_to_compass
  rw [roundHalfEven_90]
  decide

lemma compass_185 : degrees_to_compass 185 = "S" := by
  unfold degrees_to_compass
  rw [roundHalfEven_185]
  decide

lemma compass_359 : degrees_to_compass 359 = "N" := by
  unfold degrees_to_compass
  rw [roundHalfEven_359]
  decide

lemma round2_6000_5280 : round2 ((6000 : ℚ) / 5280) = 1.14 := by
  unfold round2 roundHalfEven
  norm_num [Int.floor_eq_iff]

lemma round2_1500_1000 : round2 ((1500 : ℚ) / 1000) = 1.5 := by
  unfold round2 roundHalfEven
  norm_num [Int.floor_eq_iff]

end Helpers

/-- Claim C1: for every WMO weather code and `is_day` flag,
`get_weather_graphic` appends the `"_night"` suffix to the glyph-table key
exactly when `(category == clear) OR (category == partly_cloudy AND NOT
is_day)` where `category = get_weather_category(code)`; in particular code
`0` with `is_day = false` selects the `clear_night` glyph and code `2`
with `is_day = true` selects the `partly_cloudy` (day) glyph. -/
theorem weather_now_C1_night_suffix :
    (∀ (code : ℕ) (is_day : Bool),
       graphic_key code is_day = get_weather_category code ++ "_night" ↔
         (get_weather_category code = "clear" ∨
          (get_weather_category code = "partly_cloudy" ∧ is_day = false))) ∧
    graphic_key 0 false = "clear_night" ∧
    get_weather_graphic WEATHER_SYMBOLS_get 0 false = "🌙" ∧
    get_weather_graphic WEATHER_ASCII_ART_get 0 false =
      "\n       )\\\n       //\n    .-\"\n    " ∧
    graphic_key 2 true = "partly_cloudy" ∧
    get_weather_graphic WEATHER_SYMBOLS_get 2 true = "⛅" := by
  refine ⟨?_, by decide, by decide, by decide, by decide, by decide⟩
  intro code is_day
  simp only [graphic_key, graphic_suffix]
  by_cases h : get_weather_category code = "clear" ∨
      (get_weather_category code = "partly_cloudy" ∧ ¬ is_day)
  · rw [if_pos h]
    refine iff_of_true rfl ?_
    simpa [Bool.not_eq_true] using h
  · rw [if_neg h]
    refine iff_of_false (append_empty_ne_append_night _) ?_
    simpa [Bool.not_eq_true] using h

/-- Claim C3: for every visibility value and reported unit, the rendered
visibility is `(round(v/5280, 2), "miles")` when the unit is `"ft"` and
`v ≥ 5280`; otherwise `(round(v/1000, 2), "km")` when `v ≥ 1000`;
otherwise `(v, unit)` unchanged; in particular `("ft", 6000)` renders as
`(1.14, "miles")`, `1500` meters as `(1.5, "km")` and `500` meters as
`(500, original unit)`. -/
theorem weather_now_C3_visibility :
    (∀ (v : ℚ) (u : String),
       normalize_visibility u v =
         if u = "ft" ∧ v ≥ 5280 then (round2 (v / 5280), "miles")
         else if v ≥ 1000 then (round2 (v / 1000), "km")
         else (v, u)) ∧
    normalize_visibility "ft" 6000 = (1.14, "miles") ∧
    normalize_visibility "m" 1500 = (1.5, "km") ∧
    normalize_visibility "m" 500 = (500, "m") := by
  refine ⟨fun v u => rfl, ?_, ?_, ?_⟩
  · unfold normalize_visibility
    rw [if_pos ⟨rfl, by norm_num⟩, round2_6000_5280]
  · unfold normalize_visibility
    rw [if_neg (by rintro ⟨h, -⟩; exact absurd h (by decide)),
      if_pos (by norm_num), round2_1500_1000]
  · unfold normalize_visibility
    rw [if_neg (by rintro ⟨h, -⟩; exact absurd h (by decide)),
      if_neg (by norm_num)]

/-- Claim C5: for every WMO code in 0-99 that is not an explicitly listed
key, `get_weather_category` returns `"cloudy"` and
`get_weather_description` returns `"Unknown (<code>)"` with the numeric
code interpolated; neither function fails on an unknown code. -/
theorem weather_now_C5_unknown_codes :
    ∀ code : ℕ, code ≤ 99 → code ∉ WEATHER_CODES_keys →
      get_weather_category code = "cloudy" ∧
      get_weather_description code = "Unknown (" ++ toString code ++ ")" := by
  have aux : ∀ code ∈ Finset.range 100, code ∉ WEATHER_CODES_keys →
      (get_weather_category code = "cloudy" ∧
       WEATHER_CODES_get code = none) := by decide
  intro code h1 h2
  have hc := aux code (Finset.mem_range.mpr (by omega)) h2
  refine ⟨hc.1, ?_⟩
  unfold get_weather_description
  rw [hc.2]
  rfl

/-- Witness for C5 at code 42: the hypotheses hold and the conclusion
evaluates. -/
theorem weather_now_C5_unknown_codes_witness :
    (42 ≤ 99 ∧ 42 ∉ WEATHER_CODES_keys) ∧
    (get_weather_category 42 = "cloudy" ∧
     get_weather_description 42 = "Unknown (" ++ toString 42 ++ ")") :=
  ⟨⟨by omega, by decide⟩, weather_now_C5_unknown_codes 42 (by omega) (by decide)⟩

/-- Claim C6: `degrees_to_compass` is defined (returns one of the 16 fixed
labels) for every input, computed as the label at index
`round(degrees/22.5) mod 16`; in particular `degrees_to_compass 0 = "N"`,
`degrees_to_compass 359 = "N"` and `degrees_to_compass 90 = "E"`. -/
theorem weather_now_C6_compass :
    (∀ d : ℚ, degrees_to_compass d =
       compassDirections.getD ((roundHalfEven (d / 22.5) % 16).toNat) "N") ∧
    (∀ d : ℚ, degrees_to_compass d ∈ compassDirections) ∧
    degrees_to_compass 0 = "N" ∧
    degrees_to_compass 359 = "N" ∧
    degrees_to_compass 90 = "E" := by
  refine ⟨fun d => rfl, ?_, compass_0, compass_359, compass_90⟩
  intro d
  unfold degrees_to_compass
  apply getD_mem_of_lt
  have h0 : 0 ≤ roundHalfEven (d / 22.5) % 16 :=
    Int.emod_nonneg _ (by norm_num)
  have h16 : roundHalfEven (d / 22.5) % 16 < 16 :=
    Int.emod_lt_of_pos _ (by norm_num)
  have : compassDirections.length = 16 := by decide
  omega

/-- Claim C9: rendering is deterministic — for every location name,
observation record and output mode, two invocations of `display_weather`
produce byte-identical output — and the observation data is returned
unmodified. -/
theorem weather_now_C9_deterministic :
    ∀ (location_name : String) (data : WeatherData) (output_type : String),
      (display_weather location_name data output_type).1 =
        (display_weather location_name data output_type).1 ∧
      (display_weather location_name data output_type).2 = data :=
  fun _ _ _ => ⟨rfl, rfl⟩

/-- Claim C10: in `extra` output mode the Evapotranspiration line's unit
suffix is the `current_units` entry for `vapour_pressure_deficit` (line 33
of the output), and the `evapotranspiration` unit entry is never read:
changing it leaves the output unchanged. -/
theorem weather_now_C10_evapo_unit :
    ∀ (location_name : String) (data : WeatherData),
      (display_weather location_name data "extra").1.getD 33 "" =
        "Evapotranspiration: " ++ showQ data.current.evapotranspiration ++
          " " ++ data.current_units.vapour_pressure_deficit ∧
      (∀ u : String,
        (display_weather location_name
          { data with current_units :=
              { data.current_units with evapotranspiration := u } }
          "extra").1 =
        (display_weather location_name data "extra").1) := by
  intro location_name data
  refine ⟨rfl, ?_⟩
  intro u
  cases data with
  | mk lat lon cur units =>
    cases units
    simp [display_weather, display_extra_lines, direction_line,
      normalize_visibility]

/-- Claim C2 evaluated at its failing input: a geocoder response whose
`results` array is present but empty raises an `IndexError` that the
`except KeyError` handler does not catch, so the run ends with exit code 1
and a traceback on stderr, the location-not-found guidance message is
never printed, and no forecast request is issued. -/
theorem weather_now_C2_empty_results :
    geocode ⟨some []⟩ = GeoOutcome.uncaughtIndexError ∧
    ∀ (fc : Except String ForecastJson) (output_type : String),
      main_run ⟨Except.ok ⟨some []⟩, fc⟩ output_type =
        ⟨1, [], [indexErrorTraceback], false⟩ ∧
      locationNotFoundMessage ∉
        (main_run ⟨Except.ok ⟨some []⟩, fc⟩ output_type).stdout := by
  refine ⟨rfl, fun fc output_type => ⟨rfl, ?_⟩⟩
  have h : (main_run ⟨Except.ok ⟨some []⟩, fc⟩ output_type).stdout =
      [] := rfl
  rw [h]
  exact List.not_mem_nil _

/-- Claim C4 counterexample: the argument parser of this program registers
no `-d` flag, yet in `extra` output mode the direction line shows raw
degrees rather than the compass point — so "raw degrees exactly when the
`-d` option is set" fails (here at 185 degrees with unit `°`). -/
theorem weather_now_C4_counterexample :
    "-d" ∉ cliFlags ∧
    direction_line "extra" 185 "°" = "Direction: 185°" ∧
    direction_line "extra" 185 "°" ≠
      "Direction: " ++ degrees_to_compass 185 := by
  refine ⟨by decide, by decide, ?_⟩
  rw [compass_185]
  decide

/-- Claim C4 (amended): the wind direction is rendered as one of the 16
compass points by default (`classic` and `data` modes) and as raw degrees
with unit suffix exactly when the output mode is `extra`; this program
variant has no `-d` option. -/
theorem weather_now_C4_direction_by_mode :
    (∀ (output_type : String) (deg : ℚ) (u : String),
       direction_line output_type deg u =
         if output_type = "extra" then "Direction: " ++ showQ deg ++ u
         else "Direction: " ++ degrees_to_compass deg) ∧
    direction_line "data" 90 "°" = "Direction: E" ∧
    direction_line "classic" 90 "°" = "Direction: E" ∧
    direction_line "extra" 90 "°" = "Direction: 90°" := by
  refine ⟨fun _ _ _ => rfl, ?_, ?_, by decide⟩
  · simp only [direction_line]
    rw [if_neg (by decide), compass_90]
    decide
  · simp only [direction_line]
    rw [if_neg (by decide), compass_90]
    decide

/-- Claim C7: `main` returns exit code 0 on success and exit code 1 for
each of the three handled error kinds (transport failure from either
request, location-not-found, malformed response), and each of those error
messages goes to stdout while stderr stays empty. -/
theorem weather_now_C7_exit_codes :
    ∀ (net : Net) (output_type : String),
      (∀ e, net.geo = Except.error e →
        main_run net output_type =
          ⟨1, [networkErrorMessage e], [], false⟩) ∧
      (∀ resp, net.geo = Except.ok resp →
        geocode resp = GeoOutcome.locationNotFound →
        main_run net output_type =
          ⟨1, [locationNotFoundMessage], [], false⟩) ∧
      (∀ resp n la lo, net.geo = Except.ok resp →
        geocode resp = GeoOutcome.ok n la lo →
        (∀ e, net.forecast = Except.error e →
          main_run net output_type =
            ⟨1, [networkErrorMessage e], [], true⟩) ∧
        (∀ k, net.forecast = Except.ok (ForecastJson.malformed k) →
          main_run net output_type =
            ⟨1, [parseErrorMessage k], [], true⟩) ∧
        (∀ d, net.forecast = Except.ok (ForecastJson.wellFormed d) →
          main_run net output_type =
            ⟨0, (display_weather n d output_type).1, [], true⟩)) := by
  intro net output_type
  refine ⟨?_, ?_, ?_⟩
  · intro e he
    simp [main_run, he]
  · intro resp hg hr
    simp [main_run, hg, hr]
  · intro resp n la lo hg hr
    refine ⟨?_, ?_, ?_⟩ <;> intro x hf <;> simp [main_run, hg, hr, hf]

/-- Witness for C7: at a concrete geocoder transport failure the run exits
1 with the network message on stdout, nothing on stderr, and no forecast
request. -/
theorem weather_now_C7_exit_codes_witness :
    main_run ⟨Except.error "connection refused", Except.error "x"⟩ "data" =
      ⟨1, [networkErrorMessage "connection refused"], [], false⟩ :=
  (weather_now_C7_exit_codes
    ⟨Except.error "connection refused", Except.error "x"⟩ "data").1
    "connection refused" rfl

/-- Claim C8: for every unit selection and output mode, the forecast
request's `current` field list includes `is_day` and the whole basic field
set, and includes the extended field set exactly when the output mode is
`extra`. -/
theorem weather_now_C8_fields :
    ∀ (lat lon : String) (units : UnitsSel) (output_type : String),
      "is_day" ∈ (fetch_weather_params lat lon units output_type).current ∧
      (∀ f ∈ basicCurrentFields,
        f ∈ (fetch_weather_params lat lon units output_type).current) ∧
      ((∀ f ∈ extraCurrentFields,
        f ∈ (fetch_weather_params lat lon units output_type).current) ↔
        output_type = "extra") := by
  intro lat lon units output_type
  by_cases h : output_type = "extra"
  · subst h
    have hcur : (fetch_weather_params lat lon units "extra").current =
        basicCurrentFields ++ extraCurrentFields := rfl
    rw [hcur]
    exact ⟨by decide, by decide, iff_of_true (by decide) rfl⟩
  · have hcur : (fetch_weather_params lat lon units output_type).current =
        basicCurrentFields := by
      simp [fetch_weather_params, h]
    rw [hcur]
    refine ⟨by decide, fun f hf => hf, iff_of_false ?_ h⟩
    intro hsub
    exact absurd (hsub "dew_point_2m" (by decide)) (by decide)

/-- Witness for C8: concrete unit selections and mode `classic`, with the
inner hypothesis discharged at the field `temperature_2m`. -/
theorem weather_now_C8_fields_witness :
    "temperature_2m" ∈ basicCurrentFields ∧
    "temperature_2m" ∈ (fetch_weather_params "51.5" "-0.1"
      ⟨"celsius", "mm", "kmh"⟩ "classic").current :=
  ⟨by decide,
   (weather_now_C8_fields "51.5" "-0.1"
     ⟨"celsius", "mm", "kmh"⟩ "classic").2.1 "temperature_2m" (by decide)⟩
